import Mathlib

/-!
Shallow embedding of `src/train.py`.

The script is a straight-line batch job: read `params.yaml`, load the bundled
diabetes dataset, split it with `train_test_split(..., random_state=0)`, fit an
`ElasticNet(alpha=params["alpha"], l1_ratio=params["l1_ratio"])` on the training
partition, score R² on the holdout partition, write `metrics.yaml` with the
single key `r2`, and dump the fitted model with `joblib`.

Rationals stand in for the floating-point reals.  The two pieces of external
library code the script calls — the seeded index shuffle inside
`train_test_split` and the coordinate-descent solver inside `ElasticNet.fit` —
are not part of this repository; they are carried as parameters of the
embedding (the `MLLib` structure), and their documented contracts are stated as
explicit hypotheses where a claim needs them.
-/

namespace TrainPy

/-- A feature or target vector. -/
abbrev Vec := List ℚ

/-- A data matrix, as a list of rows. -/
abbrev Mat := List Vec

/-- Dot product (zipping truncates at the shorter list). -/
def dot (a b : Vec) : ℚ := (List.zipWith (fun x y => x * y) a b).sum

/-- The fitted elastic-net model: coefficient vector and intercept
(`regr.coef_` and `regr.intercept_`). -/
structure EModel where
  coef : Vec
  intercept : ℚ
  deriving DecidableEq

/-- `regr.predict` on one sample: the linear prediction. -/
def EModel.predict (m : EModel) (x : Vec) : ℚ := dot m.coef x + m.intercept

/-- Sum of squared residuals of model `m` on rows `X` with targets `y`. -/
def sqError (X : Mat) (y : Vec) (m : EModel) : ℚ :=
  (List.zipWith (fun x yi => (yi - m.predict x) ^ 2) X y).sum

/-- L1 norm of a coefficient vector. -/
def l1Norm (w : Vec) : ℚ := (w.map (fun c => |c|)).sum

/-- Squared L2 norm of a coefficient vector. -/
def sqL2Norm (w : Vec) : ℚ := (w.map (fun c => c ^ 2)).sum

/-- Modelled from the spec: the elastic-net training objective that the external
solver behind `regr.fit` minimizes — "minimize squared error plus
`alpha * (l1_ratio * L1-norm + 0.5*(1-l1_ratio) * L2-norm)` of the coefficient
vector, over the training partition".  The solver itself is library code absent
from this repository. -/
def enObjective (X : Mat) (y : Vec) (alpha l1m : ℚ) (m : EModel) : ℚ :=
  sqError X y m + alpha * (l1m * l1Norm m.coef + (1 / 2) * (1 - l1m) * sqL2Norm m.coef)

/-- Mean of a vector (0 on the empty vector, where ℚ-division by 0 is 0). -/
def mean (v : Vec) : ℚ := v.sum / (v.length : ℚ)

/-- Residual sum of squares. -/
def ssRes (yTrue yPred : Vec) : ℚ :=
  (List.zipWith (fun a b => (a - b) ^ 2) yTrue yPred).sum

/-- Total sum of squares around the mean. -/
def ssTot (yTrue : Vec) : ℚ :=
  (yTrue.map (fun a => (a - mean yTrue) ^ 2)).sum

/-- `regr.score(X_test, y_test)`: the coefficient of determination
`R² = 1 - ssRes/ssTot`, with the library's degenerate-case convention when the
target is constant (1 on a perfect fit, 0 otherwise). -/
def r2Score (yTrue yPred : Vec) : ℚ :=
  if ssTot yTrue = 0 then (if ssRes yTrue yPred = 0 then 1 else 0)
  else 1 - ssRes yTrue yPred / ssTot yTrue

/-- Modelled from the spec: `joblib.dump` — "a binary serialization of the
fitted model sufficient to reload it for future scoring without retraining".
Encoded as a flat list: coefficient count, intercept, then the coefficients. -/
def serializeModel (m : EModel) : List ℚ :=
  (m.coef.length : ℚ) :: m.intercept :: m.coef

/-- Modelled from the spec: `joblib.load`, the inverse of `serializeModel`. -/
def deserializeModel (bs : List ℚ) : Option EModel :=
  match bs with
  | _ :: ic :: cs => some ⟨cs, ic⟩
  | _ => none

/-- The parsed content of `params.yaml`: a key-value mapping.  The script
consults only the keys `"alpha"` and `"l1_ratio"`. -/
abbrev Config := List (String × ℚ)

/-- Failure modes of the external fit (e.g. non-convergence). -/
inductive FitError
  | nonConvergence
  | numericalFailure
  deriving DecidableEq

/-- Errors the script can abort with: the config file missing, a `KeyError` on a
missing config key, or an error raised by the fit.  The script installs no
handler, so each one propagates to the process boundary. -/
inductive TrainError
  | missingParamsFile
  | keyError (key : String)
  | fitError (e : FitError)
  deriving DecidableEq

/-- The observable steps of the script, in program order. -/
inductive Event
  | readParams
  | loadData
  | splitData
  | fitModel
  | scoreModel
  | writeMetrics
  | writeModel
  deriving DecidableEq

/-- The external-library surface the script calls: the seeded index shuffle
used by `train_test_split` (seed and length to an index order) and the
elastic-net solver behind `regr.fit` (training rows, targets, `alpha` and the
mixing weight to a fitted model, or a fit failure). -/
structure MLLib where
  permute : Nat → Nat → List Nat
  solve : Mat → Vec → ℚ → ℚ → Except FitError EModel

/-- The four return values of `train_test_split`. -/
structure SplitData where
  xTrain : Mat
  xTest : Mat
  yTrain : Vec
  yTest : Vec
  deriving DecidableEq

/-- Row selection by index list (invalid indices select nothing). -/
def select (xs : List α) (idx : List Nat) : List α :=
  idx.filterMap (fun i => xs[i]?)

/-- The library's default holdout size: `test_size = 0.25`, i.e. `⌈n/4⌉` rows. -/
def testCount (n : Nat) : Nat := (n + 3) / 4

/-- `train_test_split(data.data, data.target, random_state=0)`: shuffle the row
indices with the seeded generator (a missing `random_state` would draw ambient
`entropy` instead), take the first `testCount n` shuffled rows as the holdout
partition and the rest as the training partition. -/
def trainTestSplit (lib : MLLib) (X : Mat) (y : Vec) (randomState : Option Nat)
    (entropy : Nat) : SplitData :=
  let n := X.length
  let seed := randomState.getD entropy
  let idx := lib.permute seed n
  let k := testCount n
  { xTrain := select X (idx.drop k), xTest := select X (idx.take k),
    yTrain := select y (idx.drop k), yTest := select y (idx.take k) }

/-- `load_diabetes()`: the bundled reference dataset (feature rows and target).
Its numeric values ship with the library, not with this repository, so the
dataset is a parameter of the embedding. -/
structure Dataset where
  data : Mat
  target : Vec
  deriving DecidableEq

/-- The two artifacts a successful run writes: the parsed content of
`metrics.yaml` and the serialized bytes of `model.joblib`. -/
structure RunOutput where
  metricsFile : List (String × ℚ)
  modelFile : List ℚ
  deriving DecidableEq

instance exceptDecEq {ε α : Type} [DecidableEq ε] [DecidableEq α] :
    DecidableEq (Except ε α) := fun a b =>
  match a, b with
  | .error e, .error e' => decidable_of_iff (e = e') (by simp)
  | .ok v, .ok v' => decidable_of_iff (v = v') (by simp)
  | .error _, .ok _ => isFalse (by simp)
  | .ok _, .error _ => isFalse (by simp)

/-- Result of a run: the process outcome and the trace of completed steps. -/
structure RunResult where
  result : Except TrainError RunOutput
  trace : List Event
  deriving DecidableEq

/-- Lines 18–28 of the script, after the `ElasticNet` model is constructed:
`regr.fit`, `regr.score`, `yaml.dump` of `{"r2": r2}`, then `joblib.dump`.
A fit failure propagates; nothing is written after it. -/
def afterFit (lib : MLLib) (s : SplitData) (alpha l1m : ℚ) (pre : List Event) : RunResult :=
  match lib.solve s.xTrain s.yTrain alpha l1m with
  | .error e => ⟨.error (.fitError e), pre ++ [Event.fitModel]⟩
  | .ok m =>
    let r2 := r2Score s.yTest (s.xTest.map m.predict)
    ⟨.ok ⟨[("r2", r2)], serializeModel m⟩,
      pre ++ [Event.fitModel, Event.scoreModel, Event.writeMetrics, Event.writeModel]⟩

/-- The script body once `params.yaml` has been parsed: load and split the data
(line 13–14), then look up `params["alpha"]` and `params["l1_ratio"]` (line 17,
in Python's left-to-right keyword order, raising `KeyError` on a missing key),
then fit, score and persist. -/
def runWithConfig (lib : MLLib) (ds : Dataset) (params : Config) (entropy : Nat) : RunResult :=
  let pre := [Event.readParams, Event.loadData, Event.splitData]
  let s := trainTestSplit lib ds.data ds.target (some 0) entropy
  match params.lookup "alpha" with
  | none => ⟨.error (.keyError "alpha"), pre⟩
  | some alpha =>
    match params.lookup "l1_ratio" with
    | none => ⟨.error (.keyError "l1_ratio"), pre⟩
    | some l1m => afterFit lib s alpha l1m pre

/-- The whole script.  `fs` is the parsed content of `params.yaml` (`none` when
the file is missing or unreadable, in which case `open` raises before anything
else happens); `entropy` is the ambient randomness that an unset `random_state`
would consume — the script pins `random_state=0`. -/
def run (lib : MLLib) (ds : Dataset) (fs : Option Config) (entropy : Nat) : RunResult :=
  match fs with
  | none => ⟨.error .missingParamsFile, []⟩
  | some params => runWithConfig lib ds params entropy

/-- The split the script computes (line 14), with the pinned seed 0. -/
def splitOf (lib : MLLib) (ds : Dataset) (entropy : Nat) : SplitData :=
  trainTestSplit lib ds.data ds.target (some 0) entropy

/-- The documented contract of the external elastic-net solver: any model it
returns minimizes `enObjective` on the data it was fitted to. -/
def SolveSpec (lib : MLLib) : Prop :=
  ∀ X y alpha l1m m, lib.solve X y alpha l1m = .ok m →
    ∀ m' : EModel, enObjective X y alpha l1m m ≤ enObjective X y alpha l1m m'

/-! ### Concrete library instances and fixtures, used by the witnesses -/

/-- A shuffler that returns the identity order. -/
def rangePermute : Nat → Nat → List Nat := fun _ n => List.range n

/-- A solver that handles only the all-zero regression problem (where the
all-zero model is an exact minimizer of `enObjective`) and reports
non-convergence on anything else. -/
def zeroSolve : Mat → Vec → ℚ → ℚ → Except FitError EModel := fun X y alpha l1m =>
  if (∀ r ∈ X, ∀ v ∈ r, v = 0) ∧ (∀ v ∈ y, v = 0) ∧ 0 ≤ alpha ∧ 0 ≤ l1m ∧ l1m ≤ 1 then
    Except.ok ⟨(X.headD []).map (fun _ => 0), 0⟩
  else Except.error FitError.nonConvergence

/-- A concrete library for the witnesses. -/
def witnessLib : MLLib := ⟨rangePermute, zeroSolve⟩

/-- A library whose fit always fails to converge. -/
def failLib : MLLib := ⟨rangePermute, fun _ _ _ _ => Except.error FitError.nonConvergence⟩

/-- A small concrete dataset: four one-feature rows. -/
def ds0 : Dataset := ⟨[[0], [0], [0], [0]], [0, 0, 0, 0]⟩

/-- A concrete configuration with exactly the recognized keys. -/
def cfg0 : Config := [("alpha", 1/2), ("l1_ratio", 1/2)]

/-- `cfg0` plus an extra, unrecognized key. -/
def cfgExtra : Config := [("alpha", 1/2), ("l1_ratio", 1/2), ("max_iter", 5)]

/-- A 442-row all-zero dataset, matching the diabetes dataset's row count. -/
def ds442 : Dataset := ⟨List.replicate 442 [0], List.replicate 442 0⟩

/-- Full evaluation of the witness run: it succeeds, records `r2 = 1` and the
serialized all-zero model, and completes all seven steps. -/
theorem run0_eval : run witnessLib ds0 (some cfg0) 0
    = ⟨Except.ok ⟨[("r2", 1)], [1, 0, 0]⟩,
       [Event.readParams, Event.loadData, Event.splitData, Event.fitModel,
        Event.scoreModel, Event.writeMetrics, Event.writeModel]⟩ := by
  simp only [run, runWithConfig, afterFit, trainTestSplit, splitOf, witnessLib, ds0, cfg0,
    rangePermute, zeroSolve, select, testCount, List.lookup, String.reduceBEq,
    List.range_succ, List.range_zero,
    r2Score, ssTot, ssRes, mean, serializeModel, EModel.predict, dot,
    List.filterMap_cons, List.filterMap_nil, List.getElem?_cons_zero, List.getElem?_cons_succ,
    List.sum_cons, List.sum_nil, List.zipWith_cons_cons, List.zipWith_nil_left,
    List.zipWith_nil_right, List.map_cons, List.map_nil, List.length_cons, List.length_nil,
    List.headD, List.take, List.drop, List.append_nil, List.nil_append, List.cons_append]
  norm_num

/-! ### Helper lemmas -/

theorem deserialize_serialize (m : EModel) :
    deserializeModel (serializeModel m) = some m := rfl

theorem zipWith_sum_nonneg {α β : Type} (f : α → β → ℚ) (hf : ∀ a b, 0 ≤ f a b) :
    ∀ (as : List α) (bs : List β), 0 ≤ (List.zipWith f as bs).sum := by
  intro as
  induction as with
  | nil => intro bs; simp
  | cons a as ih =>
    intro bs
    cases bs with
    | nil => simp
    | cons b bs => simpa using add_nonneg (hf a b) (ih bs)

theorem sqError_nonneg (X : Mat) (y : Vec) (m : EModel) : 0 ≤ sqError X y m :=
  zipWith_sum_nonneg _ (fun x yi => sq_nonneg (yi - m.predict x)) X y

theorem ssRes_nonneg (yTrue yPred : Vec) : 0 ≤ ssRes yTrue yPred :=
  zipWith_sum_nonneg _ (fun a b => sq_nonneg (a - b)) yTrue yPred

theorem ssTot_nonneg (yTrue : Vec) : 0 ≤ ssTot yTrue := by
  apply List.sum_nonneg
  intro x hx
  simp only [List.mem_map] at hx
  obtain ⟨a, _, rfl⟩ := hx
  exact sq_nonneg _

theorem l1Norm_nonneg (w : Vec) : 0 ≤ l1Norm w := by
  apply List.sum_nonneg
  intro x hx
  simp only [List.mem_map] at hx
  obtain ⟨a, _, rfl⟩ := hx
  exact abs_nonneg _

theorem sqL2Norm_nonneg (w : Vec) : 0 ≤ sqL2Norm w := by
  apply List.sum_nonneg
  intro x hx
  simp only [List.mem_map] at hx
  obtain ⟨a, _, rfl⟩ := hx
  exact sq_nonneg _

theorem r2Score_le_one (yTrue yPred : Vec) : r2Score yTrue yPred ≤ 1 := by
  unfold r2Score
  split
  · split <;> norm_num
  · have h1 : 0 ≤ ssTot yTrue := ssTot_nonneg _
    have h2 : 0 ≤ ssRes yTrue yPred := ssRes_nonneg _ _
    have h3 : 0 ≤ ssRes yTrue yPred / ssTot yTrue := div_nonneg h2 h1
    linarith

theorem enObjective_nonneg {X : Mat} {y : Vec} {alpha l1m : ℚ}
    (ha : 0 ≤ alpha) (h0 : 0 ≤ l1m) (h1 : l1m ≤ 1) (m : EModel) :
    0 ≤ enObjective X y alpha l1m m := by
  unfold enObjective
  have t0 := sqError_nonneg X y m
  have t1 : 0 ≤ l1m * l1Norm m.coef := mul_nonneg h0 (l1Norm_nonneg _)
  have t2 : (0:ℚ) ≤ (1 / 2) * (1 - l1m) * sqL2Norm m.coef :=
    mul_nonneg (mul_nonneg (by norm_num) (by linarith)) (sqL2Norm_nonneg _)
  have t3 : 0 ≤ alpha * (l1m * l1Norm m.coef + (1 / 2) * (1 - l1m) * sqL2Norm m.coef) :=
    mul_nonneg ha (add_nonneg t1 t2)
  linarith

theorem dot_zero_left {a : Vec} (b : Vec) (h : ∀ c ∈ a, c = 0) : dot a b = 0 := by
  induction a generalizing b with
  | nil => simp [dot]
  | cons x xs ih =>
    cases b with
    | nil => simp [dot]
    | cons y ys =>
      have hx : x = 0 := h x (List.mem_cons_self _ _)
      have hrest := ih ys (fun c hc => h c (List.mem_cons_of_mem _ hc))
      simp only [dot, List.zipWith_cons_cons, List.sum_cons] at hrest ⊢
      rw [hx, hrest]
      ring

theorem sqError_zero {X : Mat} {y : Vec} {m : EModel}
    (hy : ∀ v ∈ y, v = 0) (hc : ∀ c ∈ m.coef, c = 0) (hi : m.intercept = 0) :
    sqError X y m = 0 := by
  unfold sqError
  induction X generalizing y with
  | nil => simp
  | cons x xs ih =>
    cases y with
    | nil => simp
    | cons yv yvs =>
      have h1 : yv = 0 := hy yv (List.mem_cons_self _ _)
      have h2 := ih (y := yvs) (fun v hv => hy v (List.mem_cons_of_mem _ hv))
      simp only [List.zipWith_cons_cons, List.sum_cons, h2, add_zero]
      rw [h1, EModel.predict, dot_zero_left _ hc, hi]
      ring

theorem zeroSolve_spec : SolveSpec witnessLib := by
  intro X y alpha l1m m hok m'
  unfold witnessLib zeroSolve at hok
  simp only at hok
  split at hok
  case isTrue h =>
    obtain ⟨hX, hy, ha, hl0, hl1⟩ := h
    have hm : m = ⟨(X.headD []).map (fun _ => 0), 0⟩ := by
      cases hok
      rfl
    have hcoef : ∀ c ∈ m.coef, c = 0 := by
      intro c hc
      rw [hm] at hc
      simp only [List.mem_map] at hc
      obtain ⟨_, _, rfl⟩ := hc
      rfl
    have hl1n : l1Norm m.coef = 0 := by
      unfold l1Norm
      apply List.sum_eq_zero
      intro c hc
      simp only [List.mem_map] at hc
      obtain ⟨a, hmem, rfl⟩ := hc
      rw [hcoef a hmem]
      norm_num
    have hl2n : sqL2Norm m.coef = 0 := by
      unfold sqL2Norm
      apply List.sum_eq_zero
      intro c hc
      simp only [List.mem_map] at hc
      obtain ⟨a, hmem, rfl⟩ := hc
      rw [hcoef a hmem]
      norm_num
    have hzero : enObjective X y alpha l1m m = 0 := by
      unfold enObjective
      rw [sqError_zero hy hcoef (by rw [hm]), hl1n, hl2n]
      ring
    rw [hzero]
    exact enObjective_nonneg ha hl0 hl1 m'
  case isFalse h => cases hok

theorem select_length {α : Type} {xs : List α} {idx : List Nat}
    (h : ∀ i ∈ idx, i < xs.length) : (select xs idx).length = idx.length := by
  induction idx with
  | nil => rfl
  | cons i is ih =>
    have hi : i < xs.length := h i (List.mem_cons_self _ _)
    have hsome : xs[i]? = some xs[i] := List.getElem?_eq_getElem hi
    simp only [select, List.filterMap_cons, hsome, List.length_cons]
    rw [show (List.filterMap (fun j => xs[j]?) is).length = is.length from
      ih (fun j hj => h j (List.mem_cons_of_mem _ hj))]

/-- Inversion of a successful run: the config file was present, both keys
resolved, the fit succeeded, and the outputs and trace are exactly as the
script's tail computes them. -/
theorem run_ok_inv {lib : MLLib} {ds : Dataset} {fs : Option Config} {entropy : Nat}
    {out : RunOutput} (h : (run lib ds fs entropy).result = Except.ok out) :
    ∃ cfg alpha l1m m, fs = some cfg ∧
      cfg.lookup "alpha" = some alpha ∧ cfg.lookup "l1_ratio" = some l1m ∧
      lib.solve (splitOf lib ds entropy).xTrain (splitOf lib ds entropy).yTrain alpha l1m
        = Except.ok m ∧
      out.metricsFile = [("r2", r2Score (splitOf lib ds entropy).yTest
        ((splitOf lib ds entropy).xTest.map m.predict))] ∧
      out.modelFile = serializeModel m ∧
      (run lib ds fs entropy).trace = [Event.readParams, Event.loadData, Event.splitData,
        Event.fitModel, Event.scoreModel, Event.writeMetrics, Event.writeModel] := by
  cases fs with
  | none => simp [run] at h
  | some cfg =>
    cases hA : cfg.lookup "alpha" with
    | none => simp [run, runWithConfig, hA] at h
    | some alpha =>
      cases hL : cfg.lookup "l1_ratio" with
      | none => simp [run, runWithConfig, hA, hL] at h
      | some l1m =>
        cases hS : lib.solve (trainTestSplit lib ds.data ds.target (some 0) entropy).xTrain
            (trainTestSplit lib ds.data ds.target (some 0) entropy).yTrain alpha l1m with
        | error e => simp [run, runWithConfig, afterFit, hA, hL, hS] at h
        | ok m =>
          simp only [run, runWithConfig, afterFit, hA, hL, hS, Except.ok.injEq] at h
          subst h
          refine ⟨cfg, alpha, l1m, m, rfl, hA, hL, ?_, rfl, rfl, ?_⟩
          · simpa [splitOf] using hS
          · simp [run, runWithConfig, afterFit, hA, hL, hS]

/-- At mixing weight 0 the modelled elastic-net penalty reduces to pure
(ridge-like) L2. -/
theorem enObjective_mix_zero (X : Mat) (y : Vec) (alpha : ℚ) (m : EModel) :
    enObjective X y alpha 0 m = sqError X y m + alpha * ((1 / 2) * sqL2Norm m.coef) := by
  unfold enObjective
  ring

/-- At mixing weight 1 the modelled elastic-net penalty reduces to pure
(lasso-like) L1. -/
theorem enObjective_mix_one (X : Mat) (y : Vec) (alpha : ℚ) (m : EModel) :
    enObjective X y alpha 1 m = sqError X y m + alpha * l1Norm m.coef := by
  unfold enObjective
  ring

/-! ### Claim theorems -/

/-- C1: The fitted model minimizes, over the training partition, squared error
plus the penalty `alpha * (l1_ratio * L1-norm + 0.5*(1-l1_ratio) * L2-norm)` of
the coefficient vector, where `alpha` and `l1_ratio` are taken from the
configuration mapping.  Stated under the external solver's contract
(`SolveSpec`): the solver behind `regr.fit` is library code, not part of this
repository. -/
theorem fitted_model_minimizes_objective {lib : MLLib} {ds : Dataset} {cfg : Config}
    {entropy : Nat} {alpha l1m : ℚ} {out : RunOutput}
    (hlib : SolveSpec lib)
    (hA : cfg.lookup "alpha" = some alpha)
    (hL : cfg.lookup "l1_ratio" = some l1m)
    (h : (run lib ds (some cfg) entropy).result = Except.ok out) :
    ∃ m, deserializeModel out.modelFile = some m ∧
      ∀ m' : EModel,
        enObjective (splitOf lib ds entropy).xTrain (splitOf lib ds entropy).yTrain alpha l1m m
          ≤ enObjective (splitOf lib ds entropy).xTrain (splitOf lib ds entropy).yTrain alpha
              l1m m' := by
  obtain ⟨cfg', alpha', l1m', m, hcfg, hA', hL', hS, _, hMod, _⟩ := run_ok_inv h
  have hc : cfg' = cfg := by injection hcfg with h'; exact h'.symm
  subst hc
  have ha : alpha' = alpha := by rw [hA] at hA'; exact (Option.some.inj hA').symm
  have hl : l1m' = l1m := by rw [hL] at hL'; exact (Option.some.inj hL').symm
  subst ha hl
  refine ⟨m, ?_, fun m' => hlib _ _ _ _ _ hS m'⟩
  rw [hMod, deserialize_serialize]

/-- Witness for C1: the concrete all-zero run, with the concrete solver
satisfying the minimization contract. -/
theorem fitted_model_minimizes_objective_witness :
    ∃ m, deserializeModel (RunOutput.mk [("r2", 1)] [1, 0, 0]).modelFile = some m ∧
      ∀ m' : EModel,
        enObjective (splitOf witnessLib ds0 0).xTrain (splitOf witnessLib ds0 0).yTrain
            (1 / 2) (1 / 2) m
          ≤ enObjective (splitOf witnessLib ds0 0).xTrain (splitOf witnessLib ds0 0).yTrain
              (1 / 2) (1 / 2) m' :=
  @fitted_model_minimizes_objective witnessLib ds0 cfg0 0 (1 / 2) (1 / 2)
    ⟨[("r2", 1)], [1, 0, 0]⟩ zeroSolve_spec (by simp [cfg0, List.lookup])
    (by simp [cfg0, List.lookup]) (by rw [run0_eval])

/-- C2: For a fixed configuration mapping and the fixed dataset, any two runs of
the workflow are identical — in particular they produce the identical `r2`
value — because the split seed is pinned to `random_state=0`, so the ambient
entropy an unseeded split would draw is never consulted. -/
theorem run_deterministic (lib : MLLib) (ds : Dataset) (fs : Option Config) (e1 e2 : Nat) :
    run lib ds fs e1 = run lib ds fs e2 := by
  cases fs <;> rfl

/-- C3: If the configuration file is missing, or the mapping lacks the key
`"alpha"` (or `"l1_ratio"`), the run aborts with an error before any fit is
attempted and before any output file is written; no default is substituted. -/
theorem missing_config_aborts {lib : MLLib} {ds : Dataset} {fs : Option Config} {entropy : Nat}
    (h : fs = none ∨ ∃ cfg, fs = some cfg ∧
          (cfg.lookup "alpha" = none ∨ cfg.lookup "l1_ratio" = none)) :
    (∃ e, (run lib ds fs entropy).result = Except.error e) ∧
      Event.fitModel ∉ (run lib ds fs entropy).trace ∧
      Event.writeMetrics ∉ (run lib ds fs entropy).trace ∧
      Event.writeModel ∉ (run lib ds fs entropy).trace := by
  rcases h with rfl | ⟨cfg, rfl, hk⟩
  · exact ⟨⟨TrainError.missingParamsFile, rfl⟩, by simp [run], by simp [run], by simp [run]⟩
  · rcases hk with hA | hL
    · refine ⟨⟨TrainError.keyError "alpha", ?_⟩, ?_, ?_, ?_⟩ <;>
        simp [run, runWithConfig, hA]
    · cases hA : cfg.lookup "alpha" with
      | none =>
        refine ⟨⟨TrainError.keyError "alpha", ?_⟩, ?_, ?_, ?_⟩ <;>
          simp [run, runWithConfig, hA]
      | some alpha =>
        refine ⟨⟨TrainError.keyError "l1_ratio", ?_⟩, ?_, ?_, ?_⟩ <;>
          simp [run, runWithConfig, hA, hL]

/-- Witness for C3: the missing-file case at concrete inputs. -/
theorem missing_config_aborts_witness :
    (∃ e, (run witnessLib ds0 none 0).result = Except.error e) ∧
      Event.fitModel ∉ (run witnessLib ds0 none 0).trace ∧
      Event.writeMetrics ∉ (run witnessLib ds0 none 0).trace ∧
      Event.writeModel ∉ (run witnessLib ds0 none 0).trace :=
  missing_config_aborts (Or.inl rfl)

/-- C4: Round-trip persistence — for every successful run, the model reloaded
from the persisted serialization produces the same predictions on the holdout
partition, and therefore the same R² value, as the in-memory fitted model at
save time. -/
theorem model_roundtrip {lib : MLLib} {ds : Dataset} {fs : Option Config} {entropy : Nat}
    {out : RunOutput} (h : (run lib ds fs entropy).result = Except.ok out) :
    ∃ m m', out.modelFile = serializeModel m ∧
      out.metricsFile = [("r2", r2Score (splitOf lib ds entropy).yTest
        ((splitOf lib ds entropy).xTest.map m.predict))] ∧
      deserializeModel out.modelFile = some m' ∧
      (splitOf lib ds entropy).xTest.map m'.predict
        = (splitOf lib ds entropy).xTest.map m.predict ∧
      r2Score (splitOf lib ds entropy).yTest ((splitOf lib ds entropy).xTest.map m'.predict)
        = r2Score (splitOf lib ds entropy).yTest
            ((splitOf lib ds entropy).xTest.map m.predict) := by
  obtain ⟨cfg, alpha, l1m, m, _, _, _, _, hM, hMod, _⟩ := run_ok_inv h
  refine ⟨m, m, hMod, hM, ?_, rfl, rfl⟩
  rw [hMod, deserialize_serialize]

/-- Witness for C4: the concrete all-zero run. -/
theorem model_roundtrip_witness :
    ∃ (m m' : EModel), (RunOutput.mk [("r2", 1)] [1, 0, 0]).modelFile = serializeModel m ∧
      (RunOutput.mk [("r2", 1)] [1, 0, 0]).metricsFile
        = [("r2", r2Score (splitOf witnessLib ds0 0).yTest
            ((splitOf witnessLib ds0 0).xTest.map m.predict))] ∧
      deserializeModel (RunOutput.mk [("r2", 1)] [1, 0, 0]).modelFile = some m' ∧
      (splitOf witnessLib ds0 0).xTest.map m'.predict
        = (splitOf witnessLib ds0 0).xTest.map m.predict ∧
      r2Score (splitOf witnessLib ds0 0).yTest
          ((splitOf witnessLib ds0 0).xTest.map m'.predict)
        = r2Score (splitOf witnessLib ds0 0).yTest
            ((splitOf witnessLib ds0 0).xTest.map m.predict) :=
  @model_roundtrip witnessLib ds0 (some cfg0) 0 ⟨[("r2", 1)], [1, 0, 0]⟩ (by rw [run0_eval])

/-- C5: For every configuration on which the run completes, the computed `r2`
value is at most 1 (negative values are not excluded). -/
theorem r2_le_one {lib : MLLib} {ds : Dataset} {fs : Option Config} {entropy : Nat}
    {out : RunOutput} (h : (run lib ds fs entropy).result = Except.ok out) :
    ∃ v, out.metricsFile = [("r2", v)] ∧ v ≤ 1 := by
  obtain ⟨cfg, alpha, l1m, m, _, _, _, _, hM, _, _⟩ := run_ok_inv h
  exact ⟨_, hM, r2Score_le_one _ _⟩

/-- Witness for C5: the concrete all-zero run records `r2 = 1 ≤ 1`. -/
theorem r2_le_one_witness :
    ∃ v, (RunOutput.mk [("r2", 1)] [1, 0, 0]).metricsFile = [("r2", v)] ∧ v ≤ 1 :=
  @r2_le_one witnessLib ds0 (some cfg0) 0 ⟨[("r2", 1)], [1, 0, 0]⟩ (by rw [run0_eval])

/-- C6: A failing fit (e.g. non-convergence, surfaced as an error by the
library) aborts the run: the script installs no handler, so the error reaches
the process boundary and neither artifact is written. -/
theorem fit_failure_aborts {lib : MLLib} {ds : Dataset} {cfg : Config} {entropy : Nat}
    {alpha l1m : ℚ} {fe : FitError}
    (hA : cfg.lookup "alpha" = some alpha)
    (hL : cfg.lookup "l1_ratio" = some l1m)
    (hS : lib.solve (splitOf lib ds entropy).xTrain (splitOf lib ds entropy).yTrain alpha l1m
      = Except.error fe) :
    (run lib ds (some cfg) entropy).result = Except.error (TrainError.fitError fe) ∧
      Event.writeMetrics ∉ (run lib ds (some cfg) entropy).trace ∧
      Event.writeModel ∉ (run lib ds (some cfg) entropy).trace := by
  have hS' : lib.solve (trainTestSplit lib ds.data ds.target (some 0) entropy).xTrain
      (trainTestSplit lib ds.data ds.target (some 0) entropy).yTrain alpha l1m
      = Except.error fe := hS
  refine ⟨?_, ?_, ?_⟩ <;> simp [run, runWithConfig, afterFit, hA, hL, hS']

/-- Witness for C6: a library whose fit always fails, at concrete inputs. -/
theorem fit_failure_aborts_witness :
    (run failLib ds0 (some cfg0) 0).result
        = Except.error (TrainError.fitError FitError.nonConvergence) ∧
      Event.writeMetrics ∉ (run failLib ds0 (some cfg0) 0).trace ∧
      Event.writeModel ∉ (run failLib ds0 (some cfg0) 0).trace :=
  @fit_failure_aborts failLib ds0 cfg0 0 (1 / 2) (1 / 2) FitError.nonConvergence
    (by simp [cfg0, List.lookup]) (by simp [cfg0, List.lookup]) rfl

/-- C8: The metrics file of every successful run holds exactly one top-level
key, `"r2"`, bound to the holdout R² of the fitted model, and the metrics write
(step 5) precedes the model write (step 6) in the trace. -/
theorem metrics_single_key_and_write_order {lib : MLLib} {ds : Dataset} {fs : Option Config}
    {entropy : Nat} {out : RunOutput}
    (h : (run lib ds fs entropy).result = Except.ok out) :
    (∃ m : EModel, out.metricsFile = [("r2", r2Score (splitOf lib ds entropy).yTest
        ((splitOf lib ds entropy).xTest.map m.predict))]) ∧
      (run lib ds fs entropy).trace.indexOf Event.writeMetrics
        < (run lib ds fs entropy).trace.indexOf Event.writeModel := by
  obtain ⟨cfg, alpha, l1m, m, _, _, _, _, hM, _, hT⟩ := run_ok_inv h
  refine ⟨⟨m, hM⟩, ?_⟩
  rw [hT]
  decide

/-- Witness for C8: the concrete all-zero run. -/
theorem metrics_single_key_and_write_order_witness :
    (∃ (m : EModel), (RunOutput.mk [("r2", 1)] [1, 0, 0]).metricsFile
        = [("r2", r2Score (splitOf witnessLib ds0 0).yTest
            ((splitOf witnessLib ds0 0).xTest.map m.predict))]) ∧
      (run witnessLib ds0 (some cfg0) 0).trace.indexOf Event.writeMetrics
        < (run witnessLib ds0 (some cfg0) 0).trace.indexOf Event.writeModel :=
  @metrics_single_key_and_write_order witnessLib ds0 (some cfg0) 0
    ⟨[("r2", 1)], [1, 0, 0]⟩ (by rw [run0_eval])

/-- C9: With the library's default holdout fraction (test size `⌈n/4⌉`), a
442-row dataset splits into 111 holdout and 331 training samples, and the split
depends only on the pinned seed 0, not on ambient entropy.  Hypotheses state
the shuffler's contract: it returns 442 valid indices. -/
theorem holdout_default_fraction {lib : MLLib} {ds : Dataset} (e1 e2 : Nat)
    (hX : ds.data.length = 442) (hY : ds.target.length = 442)
    (hlen : (lib.permute 0 442).length = 442)
    (hmem : ∀ i ∈ lib.permute 0 442, i < 442) :
    (splitOf lib ds e1).xTest.length = 111 ∧ (splitOf lib ds e1).xTrain.length = 331 ∧
      (splitOf lib ds e1).yTest.length = 111 ∧ (splitOf lib ds e1).yTrain.length = 331 ∧
      splitOf lib ds e1 = splitOf lib ds e2 := by
  have hk : testCount 442 = 111 := by decide
  have hxtest : (splitOf lib ds e1).xTest.length = 111 := by
    simp only [splitOf, trainTestSplit, hX, hk, Option.getD_some]
    rw [select_length (fun i hi => by
      rw [hX]
      exact hmem i (List.take_subset _ _ hi))]
    rw [List.length_take, hlen]
    omega
  have hxtrain : (splitOf lib ds e1).xTrain.length = 331 := by
    simp only [splitOf, trainTestSplit, hX, hk, Option.getD_some]
    rw [select_length (fun i hi => by
      rw [hX]
      exact hmem i (List.drop_subset _ _ hi))]
    rw [List.length_drop, hlen]
  have hytest : (splitOf lib ds e1).yTest.length = 111 := by
    simp only [splitOf, trainTestSplit, hX, hk, Option.getD_some]
    rw [select_length (fun i hi => by
      rw [hY]
      exact hmem i (List.take_subset _ _ hi))]
    rw [List.length_take, hlen]
    omega
  have hytrain : (splitOf lib ds e1).yTrain.length = 331 := by
    simp only [splitOf, trainTestSplit, hX, hk, Option.getD_some]
    rw [select_length (fun i hi => by
      rw [hY]
      exact hmem i (List.drop_subset _ _ hi))]
    rw [List.length_drop, hlen]
  exact ⟨hxtest, hxtrain, hytest, hytrain, rfl⟩

set_option maxRecDepth 4000 in
/-- Witness for C9: a concrete 442-row dataset with the identity shuffler. -/
theorem holdout_default_fraction_witness :
    (splitOf witnessLib ds442 0).xTest.length = 111 ∧
      (splitOf witnessLib ds442 0).xTrain.length = 331 ∧
      (splitOf witnessLib ds442 0).yTest.length = 111 ∧
      (splitOf witnessLib ds442 0).yTrain.length = 331 ∧
      splitOf witnessLib ds442 0 = splitOf witnessLib ds442 1 :=
  @holdout_default_fraction witnessLib ds442 0 1
    (by simp [ds442, List.length_replicate]) (by simp [ds442, List.length_replicate])
    (by simp [witnessLib, rangePermute])
    (by simp [witnessLib, rangePermute])

/-- C10: Noninterference of unrecognized configuration keys: two configuration
mappings that agree on the `"alpha"` and `"l1_ratio"` lookups produce identical
runs (same artifacts, same trace); and whenever both keys are present, the run
reaches the fit with no range validation of their values. -/
theorem config_noninterference {lib : MLLib} {ds : Dataset} {entropy : Nat} {c1 c2 : Config}
    (hA : c1.lookup "alpha" = c2.lookup "alpha")
    (hL : c1.lookup "l1_ratio" = c2.lookup "l1_ratio") :
    run lib ds (some c1) entropy = run lib ds (some c2) entropy ∧
      ∀ alpha l1m, c1.lookup "alpha" = some alpha → c1.lookup "l1_ratio" = some l1m →
        Event.fitModel ∈ (run lib ds (some c1) entropy).trace := by
  constructor
  · simp only [run, runWithConfig, hA, hL]
  · intro alpha l1m h1 h2
    cases hS : lib.solve (trainTestSplit lib ds.data ds.target (some 0) entropy).xTrain
        (trainTestSplit lib ds.data ds.target (some 0) entropy).yTrain alpha l1m with
    | error e => simp [run, runWithConfig, afterFit, h1, h2, hS]
    | ok m => simp [run, runWithConfig, afterFit, h1, h2, hS]

/-- Witness for C10: `cfgExtra` adds an unrecognized `"max_iter"` key to `cfg0`
and the runs coincide; the fit step is reached. -/
theorem config_noninterference_witness :
    run witnessLib ds0 (some cfg0) 0 = run witnessLib ds0 (some cfgExtra) 0 ∧
      ∀ alpha l1m, cfg0.lookup "alpha" = some alpha → cfg0.lookup "l1_ratio" = some l1m →
        Event.fitModel ∈ (run witnessLib ds0 (some cfg0) 0).trace :=
  @config_noninterference witnessLib ds0 0 cfg0 cfgExtra
    (by simp [cfg0, cfgExtra, List.lookup]) (by simp [cfg0, cfgExtra, List.lookup])

end TrainPy
